import Mathlib

/-!
Verification of the pizza order form component
(`src/frontend/components/Form.js`).

The repository ships two revisions of the same component in one file,
separated by a marker. We embed both:

* `Rev1` (first revision, lines 1–213): no touched/attempted tracking,
  per-field errors rendered unconditionally, submission outcome drawn
  from `Math.random() > 0.3`, banner timeout 3000 ms, toppings schema
  `Yup.array().required(...)`.
* `Rev2` (second revision, lines 214–441): touched/attempted tracking,
  gated error rendering, submission outcome hard-coded to success,
  banner timeout 30000 ms, toppings schema `Yup.array()`.

Yup semantics used in the embedding (yup ^1.3.2):
* `string().trim()` is a transform in non-strict mode: validation runs
  on the trimmed value.
* `string().required(msg)` fails for `undefined`, `null` and the empty
  string.
* `string().min(n, msg)` / `.max(n, msg)` compare the (trimmed) length;
  they run on any present value, including the empty string.
* `string().oneOf(list, msg)` fails for any present value outside the
  list, including the empty string.
* `array().required(msg)` fails only for `undefined`/`null`; an empty
  array is present and passes (to reject `[]`, Yup needs `.min(1)`,
  which neither revision uses).

`validate(data, { abortEarly: false })` collects all failures;
`validateForm` then folds them into one message per field path
(`newErrors[e.path] = e.message`), so when several rules fail on the
same field only one message survives.  For an empty `fullName` (resp.
empty `size`) both the `required` and the `min` (resp. `oneOf`) rules
fail; the embedding records the `required` message.  No theorem below
depends on which of the simultaneous messages is recorded, only on the
presence of an error for the field.
-/

/-- Whitespace as JavaScript's `String.prototype.trim` strips it:
space, tab, line feed, carriage return, vertical tab, form feed,
no-break space and the BOM.  (The remaining Unicode `Space_Separator`
characters JS also strips are omitted; no claim involves them.) -/
def isJsWhitespace (c : Char) : Bool :=
  c == ' ' || c == '\t' || c == '\n' || c == '\r' ||
  c == '\x0b' || c == '\x0c' || c == Char.ofNat 0xa0 || c == Char.ofNat 0xfeff

/-- JavaScript's `String.prototype.trim`, as applied by the Yup `trim`
transform: strip leading and trailing whitespace. -/
def jsTrim (s : String) : String :=
  ⟨((s.data.dropWhile isJsWhitespace).reverse.dropWhile isJsWhitespace).reverse⟩

/-- The component's form state (`useState` initial value at line 35):
`fullName`, `size` and the list of selected topping ids. -/
structure FormData where
  fullName : String
  size : String
  toppings : List String
deriving DecidableEq, Repr

/-- The initial (and post-success reset) form data:
`{ fullName: '', size: '', toppings: [] }`. -/
def initialFormData : FormData := ⟨"", "", []⟩

/-- The error mapping produced by `validateForm`: at most one message
per field path (`fullName`, `size`, `toppings`). -/
structure Errors where
  fullName : Option String
  size : Option String
  toppings : Option String
deriving DecidableEq, Repr

/-- `Object.keys(errors).length === 0`: no field has a message. -/
def Errors.isEmpty (e : Errors) : Bool :=
  e.fullName.isNone && e.size.isNone && e.toppings.isNone

/-- The empty error mapping `{}`. -/
def Errors.none : Errors := ⟨Option.none, Option.none, Option.none⟩

/-- The two text fields wired to `handleChange` (`id="fullName"` on the
text input, `id="size"` on the select). -/
inductive FieldId
  | fullName
  | size
deriving DecidableEq, Repr

/-- `handleChange`: `setFormData({ ...formData, [id]: value })`. -/
def handleChangeData (id : FieldId) (value : String) (fd : FormData) : FormData :=
  match id with
  | .fullName => { fd with fullName := value }
  | .size => { fd with size := value }

/-- Core of `handleToppingChange` (identical in both revisions): if the
id is already selected, filter it out; otherwise append it.  The source
applies `String(toppingId)` first; every caller passes
`topping.topping_id`, already a string, so this is the identity and the
embedding takes the id as a string directly. -/
def toggleToppings (toppingId : String) (ts : List String) : List String :=
  if ts.contains toppingId then
    ts.filter (fun id => id != toppingId)
  else
    ts ++ [toppingId]

/-- `handleToppingChange` restricted to the form data. -/
def handleToppingChangeData (toppingId : String) (fd : FormData) : FormData :=
  { fd with toppings := toggleToppings toppingId fd.toppings }

/-- The `toppingsData` catalog (`topping_id`, `text`). -/
def toppingsData : List (String × String) :=
  [("1", "Pepperoni"), ("2", "Green Peppers"), ("3", "Pineapple"),
   ("4", "Mushrooms"), ("5", "Ham")]

/-- `sizeText` computed in the success branch of `handleSubmit`:
`size === 'S' ? 'small' : size === 'M' ? 'medium' : 'large'`. -/
def sizeText (size : String) : String :=
  if size = "S" then "small" else if size = "M" then "medium" else "large"

/-- `toppingMessage` computed in the success branch of `handleSubmit`:
pluralization over the topping count. -/
def toppingMessage (n : Nat) : String :=
  if n = 0 then "with no toppings"
  else if n = 1 then "with 1 topping"
  else "with " ++ toString n ++ " toppings"

namespace Rev1

/-- `validationErrors.fullNameTooShort` (first revision). -/
def fullNameTooShort : String := "Full name must be at least 3 characters"

/-- `validationErrors.fullNameTooLong` (first revision). -/
def fullNameTooLong : String := "Full name must be at most 20 characters"

/-- `validationErrors.sizeIncorrect` (first revision). -/
def sizeIncorrect : String := "Size must be S or M or L"

/-- `validationErrors.toppingsRequired` (first revision). -/
def toppingsRequired : String := "At least one topping must be selected"

/-- `pizzaSchema.fullName` (first revision):
`Yup.string().trim().min(3, tooShort).max(20, tooLong).required('Full name is required')`.
Validation runs on the trimmed value.  For the empty string both
`required` and `min` fail; the `required` message is recorded (see the
header comment: only the presence of a message matters below). -/
def fullNameError (name : String) : Option String :=
  let v := jsTrim name
  if v.length = 0 then some "Full name is required"
  else if v.length < 3 then some fullNameTooShort
  else if 20 < v.length then some fullNameTooLong
  else none

/-- `pizzaSchema.size` (first revision):
`Yup.string().oneOf(['S','M','L'], sizeIncorrect).required('Size is required')`.
For the empty string both `required` and `oneOf` fail; the `required`
message is recorded. -/
def sizeError (size : String) : Option String :=
  if size = "" then some "Size is required"
  else if size = "S" ∨ size = "M" ∨ size = "L" then none
  else some sizeIncorrect

/-- `pizzaSchema.toppings` (first revision):
`Yup.array().required(toppingsRequired)`.  `required` on an array
schema fails only for `undefined`/`null`; the component state always
holds an actual array, so this rule never fails. -/
def toppingsError (_ : List String) : Option String := none

/-- `validateForm` (first revision): validate against `pizzaSchema`
with `abortEarly: false` and fold the failures into one message per
field path. -/
def validateForm (fd : FormData) : Errors :=
  ⟨fullNameError fd.fullName, sizeError fd.size, toppingsError fd.toppings⟩

end Rev1

namespace Rev1

/-- The component state (first revision): the `useState` hooks at lines
35–45, plus the runtime artifacts the embedding makes explicit —
`pending` (the `formData` snapshot captured by the `handleSubmit`
closure while the handler is suspended at `await validateForm`),
`bannerTimer` (the pending `setTimeout`, as a generation id paired with
its delay in ms) and `nextTimer` (a fresh-generation counter for new
timers). -/
structure State where
  formData : FormData
  errors : Errors
  orderSuccess : Bool
  orderMessage : String
  orderFailure : Bool
  isSubmitDisabled : Bool
  isSubmitting : Bool
  pending : Option FormData
  bannerTimer : Option (Nat × Nat)
  nextTimer : Nat
deriving DecidableEq, Repr

/-- The banner timeout of the first revision: `setTimeout(..., 3000)`. -/
def bannerTimeoutMs : Nat := 3000

/-- The `disabled` prop of the submit input (line 210):
`isSubmitDisabled || isSubmitting`. -/
def submitDisabled (s : State) : Bool := s.isSubmitDisabled || s.isSubmitting

/-- The validation `useEffect` (lines 60–67), whose dependency is
`[formData]`: recompute the error mapping and the disabled flag.  It
runs on mount and after every commit in which `setFormData` was called
(each such call creates a fresh object, so the dependency always
changes). -/
def runValidationEffect (s : State) : State :=
  let currentErrors := validateForm s.formData
  { s with errors := currentErrors,
           isSubmitDisabled := !currentErrors.isEmpty }

/-- The banner `useEffect` (lines 146–155), whose dependencies are
`[orderSuccess, orderFailure]`: the cleanup clears any pending timeout,
and a fresh timeout is armed iff a banner is showing. -/
def runBannerEffect (s : State) : State :=
  if s.orderSuccess || s.orderFailure then
    { s with bannerTimer := some (s.nextTimer, bannerTimeoutMs),
             nextTimer := s.nextTimer + 1 }
  else
    { s with bannerTimer := none }

/-- React re-runs the banner effect only when the dependency pair
`(orderSuccess, orderFailure)` changed (booleans are compared by
value); otherwise the previously armed timeout is left untouched. -/
def bannerEffectIfChanged (prev post : State) : State :=
  if post.orderSuccess = prev.orderSuccess ∧ post.orderFailure = prev.orderFailure then
    post
  else
    runBannerEffect post

/-- The state after mount: initial `useState` values followed by the
first run of both effects. -/
def init : State :=
  runBannerEffect (runValidationEffect
    ⟨initialFormData, Errors.none, false, "", false, true, false, none, none, 0⟩)

/-- `handleChange` followed by the re-render's validation effect
(`setFormData` always changes the `[formData]` dependency).  The banner
dependencies are untouched, so the banner effect does not re-run. -/
def stepChange (id : FieldId) (value : String) (s : State) : State :=
  runValidationEffect { s with formData := handleChangeData id value s.formData }

/-- `handleToppingChange` followed by the validation effect. -/
def stepToggle (toppingId : String) (s : State) : State :=
  runValidationEffect { s with formData := handleToppingChangeData toppingId s.formData }

/-- The synchronous head of `handleSubmit` (lines 92–94), up to the
suspension at `await validateForm(formData)`: set the in-flight flag
and capture the `formData` snapshot in the closure.  Neither `formData`
nor the banner booleans change, so no effect re-runs. -/
def submitStartState (s : State) : State :=
  { s with isSubmitting := true, pending := some s.formData }

/-- The success branch of `handleSubmit` (lines 102–127): build the
confirmation message from the snapshot, show the success banner and
reset the form data. -/
def successMessage (fd : FormData) : String :=
  jsTrim ("Thank you for your order, " ++ fd.fullName ++ "! Your "
    ++ sizeText fd.size ++ " pizza " ++ toppingMessage fd.toppings.length)

/-- State changes of the success branch (lines 120–127). -/
def successBranch (snap : FormData) (s : State) : State :=
  { s with orderMessage := successMessage snap,
           orderSuccess := true,
           orderFailure := false,
           formData := initialFormData }

/-- State changes of the failure branch (lines 128–132). -/
def failureBranch (s : State) : State :=
  { s with orderSuccess := false, orderFailure := true, orderMessage := "" }

/-- The rest of `handleSubmit` after the `await` resumes with the
snapshot's validation result (lines 95–143), followed by the effects of
the re-render: store the errors; if the mapping is empty, run the
simulated submission (`success` is the outcome of
`Math.random() > 0.3`) and clear the in-flight flag; otherwise just
clear the in-flight flag.  The returned boolean records whether the
submission attempt (the `try` block) was performed.  The validation
effect re-runs only on the success path (the only path that calls
`setFormData`); the banner effect re-runs only if the banner booleans
changed. -/
def submitResolveStep (snap : FormData) (success : Bool) (s : State) : State × Bool :=
  if (validateForm snap).isEmpty then
    if success then
      (bannerEffectIfChanged s (runValidationEffect
        { successBranch snap { s with errors := validateForm snap } with
          isSubmitting := false, pending := none }), true)
    else
      (bannerEffectIfChanged s
        { failureBranch { s with errors := validateForm snap } with
          isSubmitting := false, pending := none }, true)
  else
    ({ s with errors := validateForm snap, isSubmitting := false, pending := none }, false)

/-- The whole `handleSubmit` handler run without interleaving: the
synchronous head followed by the resolution on the captured snapshot. -/
def handleSubmit (success : Bool) (s : State) : State × Bool :=
  submitResolveStep s.formData success (submitStartState s)

/-- The `setTimeout` callback of the banner effect (lines 148–152)
followed by the banner effect of the re-render (the dependencies
changed whenever a banner was showing): clear both banner flags and the
message. -/
def timerFireStep (s : State) : State :=
  bannerEffectIfChanged s
    { s with orderSuccess := false, orderFailure := false, orderMessage := "" }

/-- The UI events of the first revision.  `submitStart` and
`submitResolve` are the two halves of `handleSubmit` around its
suspension point; `timerFire g` is the expiry of the banner timeout of
generation `g`. -/
inductive Event
  | change : FieldId → String → Event
  | toggleTopping : String → Event
  | submitStart : Event
  | submitResolve : Bool → Event
  | timerFire : Nat → Event
deriving DecidableEq, Repr

/-- One enabled step of the component.  `none` means the event cannot
fire in this state: the browser does not deliver a submit for a
disabled control, a resolution needs an outstanding suspended handler,
and a timeout only fires while its generation is the armed one
(`clearTimeout` cancels it otherwise). -/
def step : Event → State → Option State
  | .change id value, s => some (stepChange id value s)
  | .toggleTopping toppingId, s => some (stepToggle toppingId s)
  | .submitStart, s =>
      if submitDisabled s then none else some (submitStartState s)
  | .submitResolve success, s =>
      match s.pending with
      | some snap => some (submitResolveStep snap success s).1
      | none => none
  | .timerFire g, s =>
      match s.bannerTimer with
      | some gd => if gd.1 = g then some (timerFireStep s) else none
      | none => none

/-- States reachable from the mounted component. -/
inductive Reachable : State → Prop
  | init : Reachable init
  | step : (s : State) → (e : Event) → (s' : State) →
      Reachable s → step e s = some s' → Reachable s'

end Rev1

namespace Rev1

/-- The inductive invariant of the first revision's component:
the disabled flag always mirrors the validity of the current form data
(the validation effect keeps them in lock-step); a suspended submit
handler only ever holds a snapshot that validated cleanly (the control
is disabled otherwise, so the browser never delivered the submit); a
non-empty stored error mapping forces the disabled flag; the in-flight
flag is set exactly while a handler is suspended; a banner is showing
exactly while a timeout of the fixed delay is armed; and armed timer
generations are fresh. -/
def Inv (s : State) : Prop :=
  s.isSubmitDisabled = !(validateForm s.formData).isEmpty ∧
  (∀ snap, s.pending = some snap → (validateForm snap).isEmpty = true) ∧
  (s.errors.isEmpty = false → s.isSubmitDisabled = true) ∧
  s.pending.isSome = s.isSubmitting ∧
  ((s.orderSuccess || s.orderFailure) = true ↔
    ∃ g, s.bannerTimer = some (g, bannerTimeoutMs)) ∧
  (∀ g d, s.bannerTimer = some (g, d) → d = bannerTimeoutMs ∧ g < s.nextTimer)

end Rev1


namespace Rev1

/-- Conditional render of the fullName error (line 175):
`errors.fullName && <div className="error">…</div>` — no touched or
attempted gating in the first revision. -/
def showFullNameError (s : State) : Bool := s.errors.fullName.isSome

/-- Conditional render of the size error (line 189). -/
def showSizeError (s : State) : Bool := s.errors.size.isSome

/-- Conditional render of the toppings error (line 207). -/
def showToppingsError (s : State) : Bool := s.errors.toppings.isSome

/-- The failure banner (line 161): static text shown iff `orderFailure`. -/
def failureBannerText (s : State) : Option String :=
  if s.orderFailure then some "Something went wrong" else none

end Rev1

namespace Rev2

/-- `validationErrors.fullNameTooShort` (second revision, identical to
the first). -/
def fullNameTooShort : String := "Full name must be at least 3 characters"

/-- `validationErrors.fullNameTooLong` (second revision). -/
def fullNameTooLong : String := "Full name must be at most 20 characters"

/-- `validationErrors.sizeIncorrect` (second revision, lowercase
"size"). -/
def sizeIncorrect : String := "size must be S or M or L"

/-- `validationErrors.toppingsRequired` (second revision; defined but
no longer attached to any schema rule). -/
def toppingsRequired : String := "At least one topping must be selected"

/-- `pizzaSchema.fullName` (second revision, same rules and messages as
the first revision). -/
def fullNameError (name : String) : Option String :=
  let v := jsTrim name
  if v.length = 0 then some "Full name is required"
  else if v.length < 3 then some fullNameTooShort
  else if 20 < v.length then some fullNameTooLong
  else none

/-- `pizzaSchema.size` (second revision):
`Yup.string().oneOf(['S','M','L'], sizeIncorrect).required('size is required')`. -/
def sizeError (size : String) : Option String :=
  if size = "" then some "size is required"
  else if size = "S" ∨ size = "M" ∨ size = "L" then none
  else some sizeIncorrect

/-- `pizzaSchema.toppings` (second revision): `Yup.array()` — the
`required` rule was removed, so an actual array never fails. -/
def toppingsError (_ : List String) : Option String := none

/-- `validateForm` (second revision). -/
def validateForm (fd : FormData) : Errors :=
  ⟨fullNameError fd.fullName, sizeError fd.size, toppingsError fd.toppings⟩

/-- The `touched` object of the second revision.  The handlers only
ever set the keys `fullName`, `size` (via `handleChange`/`handleBlur`)
and `toppings` (via `handleToppingChange`); the toppings error render
at line 435 reads the distinct key `topping`, which no handler sets —
the embedding carries it as a fourth field that always stays `false`
in reachable states. -/
structure Touched where
  fullName : Bool
  size : Bool
  toppings : Bool
  topping : Bool
deriving DecidableEq, Repr

/-- The initial `touched` object `{}` (every key absent, i.e. falsy). -/
def Touched.initial : Touched := ⟨false, false, false, false⟩

/-- The component state (second revision): the `useState` hooks at
lines 248–260 plus the same runtime artifacts as in `Rev1.State`. -/
structure State where
  formData : FormData
  errors : Errors
  orderSuccess : Bool
  orderMessage : String
  orderFailure : Bool
  isSubmitDisabled : Bool
  isSubmitting : Bool
  touched : Touched
  hasAttemptedSubmit : Bool
  pending : Option FormData
  bannerTimer : Option (Nat × Nat)
  nextTimer : Nat
deriving DecidableEq, Repr

/-- The banner timeout of the second revision: `setTimeout(..., 30000)`. -/
def bannerTimeoutMs : Nat := 30000

/-- The `disabled` prop of the submit input (line 438). -/
def submitDisabled (s : State) : Bool := s.isSubmitDisabled || s.isSubmitting

/-- The validation `useEffect` (lines 275–282). -/
def runValidationEffect (s : State) : State :=
  let currentErrors := validateForm s.formData
  { s with errors := currentErrors,
           isSubmitDisabled := !currentErrors.isEmpty }

/-- The banner `useEffect` (lines 373–382). -/
def runBannerEffect (s : State) : State :=
  if s.orderSuccess || s.orderFailure then
    { s with bannerTimer := some (s.nextTimer, bannerTimeoutMs),
             nextTimer := s.nextTimer + 1 }
  else
    { s with bannerTimer := none }

/-- Re-run the banner effect only when its dependency pair changed. -/
def bannerEffectIfChanged (prev post : State) : State :=
  if post.orderSuccess = prev.orderSuccess ∧ post.orderFailure = prev.orderFailure then
    post
  else
    runBannerEffect post

/-- The state after mount. -/
def init : State :=
  runBannerEffect (runValidationEffect
    ⟨initialFormData, Errors.none, false, "", false, true, false,
      Touched.initial, false, none, none, 0⟩)

/-- `handleChange` (lines 284–289) marks the field touched. -/
def touchField (id : FieldId) (t : Touched) : Touched :=
  match id with
  | .fullName => { t with fullName := true }
  | .size => { t with size := true }

/-- `handleChange` followed by the validation effect. -/
def stepChange (id : FieldId) (value : String) (s : State) : State :=
  runValidationEffect
    { s with formData := handleChangeData id value s.formData,
             touched := touchField id s.touched }

/-- `handleBlur` (lines 291–294): only marks the field touched; no
`setFormData`, so no effect re-runs. -/
def handleBlur (id : FieldId) (s : State) : State :=
  { s with touched := touchField id s.touched }

/-- `handleToppingChange` (lines 296–313): marks `toppings` touched and
toggles the id, followed by the validation effect. -/
def stepToggle (toppingId : String) (s : State) : State :=
  runValidationEffect
    { s with formData := handleToppingChangeData toppingId s.formData,
             touched := { s.touched with toppings := true } }

/-- The synchronous head of `handleSubmit` (lines 315–318): in-flight
flag, attempted flag, snapshot. -/
def submitStartState (s : State) : State :=
  { s with isSubmitting := true, hasAttemptedSubmit := true,
           pending := some s.formData }

/-- The confirmation message of the second revision (line 343), with
the " is on the way." suffix. -/
def successMessage (fd : FormData) : String :=
  jsTrim ("Thank you for your order, " ++ fd.fullName ++ "! Your "
    ++ sizeText fd.size ++ " pizza " ++ toppingMessage fd.toppings.length
    ++ " is on the way.")

/-- The success branch (lines 326–354): banner, reset of form data,
errors, touched and attempted flags. -/
def successBranch (snap : FormData) (s : State) : State :=
  { s with orderMessage := successMessage snap,
           orderSuccess := true,
           orderFailure := false,
           formData := initialFormData,
           errors := Errors.none,
           touched := Touched.initial,
           hasAttemptedSubmit := false }

/-- The failure branch (lines 355–359) — dead code in the second
revision, since `success` is the constant `true`. -/
def failureBranch (s : State) : State :=
  { s with orderSuccess := false, orderFailure := true, orderMessage := "" }

/-- The rest of `handleSubmit` after the `await` (lines 319–371): the
second revision hard-codes `const success = true`, so a valid snapshot
always takes the success branch. -/
def submitResolveStep (snap : FormData) (s : State) : State × Bool :=
  if (validateForm snap).isEmpty then
    (bannerEffectIfChanged s (runValidationEffect
      { successBranch snap { s with errors := validateForm snap } with
        isSubmitting := false, pending := none }), true)
  else
    ({ s with errors := validateForm snap, isSubmitting := false, pending := none }, false)

/-- The whole `handleSubmit` handler of the second revision, run
without interleaving. -/
def handleSubmit (s : State) : State × Bool :=
  submitResolveStep s.formData (submitStartState s)

/-- Conditional render of the fullName error (line 403):
`(hasAttemptedSubmit || touched.fullName) && errors.fullName && …`. -/
def showFullNameError (s : State) : Bool :=
  (s.hasAttemptedSubmit || s.touched.fullName) && s.errors.fullName.isSome

/-- Conditional render of the size error (line 417). -/
def showSizeError (s : State) : Bool :=
  (s.hasAttemptedSubmit || s.touched.size) && s.errors.size.isSome

/-- Conditional render of the toppings error (line 435).  Note the
source reads `touched.topping` — a key no handler sets — not
`touched.toppings`. -/
def showToppingsError (s : State) : Bool :=
  (s.hasAttemptedSubmit || s.touched.topping) && s.errors.toppings.isSome

/-- The failure banner (line 388). -/
def failureBannerText (s : State) : Option String :=
  if s.orderFailure then some "Something went wrong" else none

end Rev2

/-! Concrete states of the first revision's machine, obtained by
running the step function on explicit event sequences.  They
instantiate the theorems below on reachable states: fill the form
with a valid name and size, submit successfully, refill and submit
again. -/

/-- After mount, type "Alice" into the fullName field. -/
def fillName : Rev1.State := Rev1.stepChange FieldId.fullName "Alice" Rev1.init

/-- … then choose size "M"; the form is now valid. -/
def fillSize : Rev1.State := Rev1.stepChange FieldId.size "M" fillName

/-- … then click submit: the handler is suspended at the `await`. -/
def inflight : Rev1.State := Rev1.submitStartState fillSize

/-- … the handler resumes with a successful outcome: success banner
shown, banner timeout of generation 0 armed, form reset. -/
def afterFirstSuccess : Rev1.State :=
  (Rev1.submitResolveStep fillSize.formData true inflight).1

/-- While the success banner is still showing, type "Bob". -/
def fillName2 : Rev1.State := Rev1.stepChange FieldId.fullName "Bob" afterFirstSuccess

/-- … choose size "L"; the form is valid again. -/
def fillSize2 : Rev1.State := Rev1.stepChange FieldId.size "L" fillName2

/-- … click submit a second time. -/
def inflight2 : Rev1.State := Rev1.submitStartState fillSize2

/-- … the second submission also succeeds: a new confirmation message
is stored, but the banner dependency pair did not change, so the
generation-0 timeout armed for the first message is still pending. -/
def afterSecondSuccess : Rev1.State :=
  (Rev1.submitResolveStep fillSize2.formData true inflight2).1

/-- After mount, type "Al" into the fullName field. -/
def alName : Rev1.State := Rev1.stepChange FieldId.fullName "Al" Rev1.init

/-- … then choose size "M": the scenario state of the spec. -/
def alNameSize : Rev1.State := Rev1.stepChange FieldId.size "M" alName

namespace Rev1

theorem inv_init : Inv init := by
  have hinit : init =
      ⟨initialFormData,
        ⟨some "Full name is required", some "Size is required", none⟩,
        false, "", false, true, false, none, none, 0⟩ := by decide
  rw [Inv, hinit]
  refine ⟨by decide, ?_, by decide, by decide, ?_, ?_⟩
  · intro snap hsnap
    exact absurd hsnap (by simp)
  · constructor
    · intro habs
      exact absurd habs (by decide)
    · rintro ⟨g, hg⟩
      exact absurd hg (by simp)
  · intro g d hgd
    exact absurd hgd (by simp)

theorem inv_stepChange (s : State) (h : Inv s) (id : FieldId) (v : String) :
    Inv (stepChange id v s) := by
  obtain ⟨hA, hB, hC, hF, hD, hE⟩ := h
  refine ⟨rfl, hB, ?_, hF, hD, hE⟩
  intro hne
  show (!(validateForm (handleChangeData id v s.formData)).isEmpty) = true
  have hne' : (validateForm (handleChangeData id v s.formData)).isEmpty = false := hne
  rw [hne']
  rfl

theorem inv_stepToggle (s : State) (h : Inv s) (toppingId : String) :
    Inv (stepToggle toppingId s) := by
  obtain ⟨hA, hB, hC, hF, hD, hE⟩ := h
  refine ⟨rfl, hB, ?_, hF, hD, hE⟩
  intro hne
  show (!(validateForm (handleToppingChangeData toppingId s.formData)).isEmpty) = true
  have hne' :
      (validateForm (handleToppingChangeData toppingId s.formData)).isEmpty = false := hne
  rw [hne']
  rfl

theorem inv_submitStart (s : State) (h : Inv s) (hg : submitDisabled s = false) :
    Inv (submitStartState s) := by
  obtain ⟨hA, hB, hC, hF, hD, hE⟩ := h
  have hdis : s.isSubmitDisabled = false := by
    cases hd : s.isSubmitDisabled
    · rfl
    · rw [submitDisabled, hd] at hg
      exact absurd hg (by simp)
  have hvalid : (validateForm s.formData).isEmpty = true := by
    rw [hdis] at hA
    cases hv : (validateForm s.formData).isEmpty
    · rw [hv] at hA
      exact absurd hA (by decide)
    · rfl
  refine ⟨hA, ?_, hC, rfl, hD, hE⟩
  intro snap hsnap
  have hsnap' : some s.formData = some snap := hsnap
  injection hsnap' with hfd
  rw [← hfd]
  exact hvalid

theorem inv_submitResolve (s : State) (h : Inv s) (snap : FormData) (success : Bool)
    (hp : s.pending = some snap) :
    Inv (submitResolveStep snap success s).1 := by
  obtain ⟨hA, hB, hC, hF, hD, hE⟩ := h
  have hsnap : (validateForm snap).isEmpty = true := hB snap hp
  rw [submitResolveStep, if_pos hsnap]
  cases success
  · rw [if_neg Bool.false_ne_true]
    show Inv (bannerEffectIfChanged s
      { failureBranch { s with errors := validateForm snap } with
        isSubmitting := false, pending := none })
    rw [bannerEffectIfChanged]
    split
    · rename_i hdep
      have h1 : false = s.orderSuccess := hdep.1
      have h2 : true = s.orderFailure := hdep.2
      refine ⟨hA, ?_, ?_, rfl, ?_, hE⟩
      · intro snap' hsnap'
        have hsnap'' : (none : Option FormData) = some snap' := hsnap'
        exact absurd hsnap'' (by simp)
      · intro hne
        have hne' : (validateForm snap).isEmpty = false := hne
        rw [hsnap] at hne'
        exact absurd hne' (by decide)
      · constructor
        · intro _
          exact hD.mp (by rw [← h1, ← h2]; exact Bool.false_or true)
        · intro _
          exact Bool.false_or true
    · rw [runBannerEffect, if_pos (by rfl)]
      refine ⟨hA, ?_, ?_, rfl, ?_, ?_⟩
      · intro snap' hsnap'
        have hsnap'' : (none : Option FormData) = some snap' := hsnap'
        exact absurd hsnap'' (by simp)
      · intro hne
        have hne' : (validateForm snap).isEmpty = false := hne
        rw [hsnap] at hne'
        exact absurd hne' (by decide)
      · exact ⟨fun _ => ⟨s.nextTimer, rfl⟩, fun _ => rfl⟩
      · intro g d hgd
        have hgd' : some (s.nextTimer, bannerTimeoutMs) = some (g, d) := hgd
        injection hgd' with hpair
        injection hpair with hg hd
        refine ⟨hd.symm, ?_⟩
        show g < s.nextTimer + 1
        omega
  · rw [if_pos rfl]
    show Inv (bannerEffectIfChanged s (runValidationEffect
      { successBranch snap { s with errors := validateForm snap } with
        isSubmitting := false, pending := none }))
    rw [bannerEffectIfChanged]
    split
    · rename_i hdep
      have h1 : true = s.orderSuccess := hdep.1
      refine ⟨rfl, ?_, ?_, rfl, ?_, hE⟩
      · intro snap' hsnap'
        have hsnap'' : (none : Option FormData) = some snap' := hsnap'
        exact absurd hsnap'' (by simp)
      · intro hne
        have hne' : (validateForm initialFormData).isEmpty = false := hne
        show (!(validateForm initialFormData).isEmpty) = true
        rw [hne']
        rfl
      · constructor
        · intro _
          exact hD.mp (by rw [← h1]; exact Bool.true_or s.orderFailure)
        · intro _
          exact Bool.true_or false
    · rw [runBannerEffect, if_pos (by rfl)]
      refine ⟨rfl, ?_, ?_, rfl, ?_, ?_⟩
      · intro snap' hsnap'
        have hsnap'' : (none : Option FormData) = some snap' := hsnap'
        exact absurd hsnap'' (by simp)
      · intro hne
        have hne' : (validateForm initialFormData).isEmpty = false := hne
        show (!(validateForm initialFormData).isEmpty) = true
        rw [hne']
        rfl
      · exact ⟨fun _ => ⟨s.nextTimer, rfl⟩, fun _ => rfl⟩
      · intro g d hgd
        have hgd' : some (s.nextTimer, bannerTimeoutMs) = some (g, d) := hgd
        injection hgd' with hpair
        injection hpair with hg hd
        refine ⟨hd.symm, ?_⟩
        show g < s.nextTimer + 1
        omega

theorem inv_timerFire (s : State) (h : Inv s) (g d : Nat)
    (ht : s.bannerTimer = some (g, d)) : Inv (timerFireStep s) := by
  obtain ⟨hA, hB, hC, hF, hD, hE⟩ := h
  have hdm : d = bannerTimeoutMs := (hE g d ht).1
  have hon : (s.orderSuccess || s.orderFailure) = true :=
    hD.mpr ⟨g, by rw [ht, hdm]⟩
  rw [timerFireStep, bannerEffectIfChanged]
  split
  · rename_i hdep
    have h1 : false = s.orderSuccess := hdep.1
    have h2 : false = s.orderFailure := hdep.2
    rw [← h1, ← h2] at hon
    exact absurd hon (by decide)
  · rw [runBannerEffect]
    split
    · rename_i hcond
      have hcond' : (false || false) = true := hcond
      exact absurd hcond' (by decide)
    · refine ⟨hA, hB, hC, hF, ?_, ?_⟩
      · constructor
        · intro habs
          have habs' : (false || false) = true := habs
          exact absurd habs' (by decide)
        · rintro ⟨g', hg'⟩
          have hg'' : (none : Option (Nat × Nat)) = some (g', bannerTimeoutMs) := hg'
          exact absurd hg'' (by simp)
      · intro g' d' hg'
        have hg'' : (none : Option (Nat × Nat)) = some (g', d') := hg'
        exact absurd hg'' (by simp)

theorem inv_step (s : State) (e : Event) (s' : State) (h : Inv s)
    (hstep : step e s = some s') : Inv s' := by
  cases e with
  | change id v =>
      simp only [step] at hstep
      cases hstep
      exact inv_stepChange s h id v
  | toggleTopping tid =>
      simp only [step] at hstep
      cases hstep
      exact inv_stepToggle s h tid
  | submitStart =>
      simp only [step] at hstep
      split at hstep
      · exact absurd hstep (by simp)
      · cases hstep
        rename_i hg
        exact inv_submitStart s h (by simpa using hg)
  | submitResolve success =>
      simp only [step] at hstep
      split at hstep
      · rename_i snap hp
        cases hstep
        exact inv_submitResolve s h snap success hp
      · exact absurd hstep (by simp)
  | timerFire g =>
      simp only [step] at hstep
      split at hstep
      · rename_i gd hgd
        split at hstep
        · cases hstep
          exact inv_timerFire s h gd.1 gd.2 (by rw [hgd])
        · exact absurd hstep (by simp)
      · exact absurd hstep (by simp)

theorem reachable_inv (s : State) (h : Reachable s) : Inv s := by
  induction h with
  | init => exact inv_init
  | step s e s' _ hstep ih => exact inv_step s e s' ih hstep

end Rev1

/-! Reachability of the concrete trace states, by chaining enabled
steps from the mounted initial state. -/

theorem reachable_fillName : Rev1.Reachable fillName :=
  Rev1.Reachable.step Rev1.init (Rev1.Event.change FieldId.fullName "Alice") fillName
    Rev1.Reachable.init rfl

theorem reachable_fillSize : Rev1.Reachable fillSize :=
  Rev1.Reachable.step fillName (Rev1.Event.change FieldId.size "M") fillSize
    reachable_fillName rfl

theorem reachable_inflight : Rev1.Reachable inflight :=
  Rev1.Reachable.step fillSize Rev1.Event.submitStart inflight
    reachable_fillSize (by decide)

theorem reachable_afterFirstSuccess : Rev1.Reachable afterFirstSuccess :=
  Rev1.Reachable.step inflight (Rev1.Event.submitResolve true) afterFirstSuccess
    reachable_inflight rfl

theorem reachable_fillName2 : Rev1.Reachable fillName2 :=
  Rev1.Reachable.step afterFirstSuccess (Rev1.Event.change FieldId.fullName "Bob") fillName2
    reachable_afterFirstSuccess rfl

theorem reachable_fillSize2 : Rev1.Reachable fillSize2 :=
  Rev1.Reachable.step fillName2 (Rev1.Event.change FieldId.size "L") fillSize2
    reachable_fillName2 rfl

theorem reachable_inflight2 : Rev1.Reachable inflight2 :=
  Rev1.Reachable.step fillSize2 Rev1.Event.submitStart inflight2
    reachable_fillSize2 (by decide)

theorem reachable_afterSecondSuccess : Rev1.Reachable afterSecondSuccess :=
  Rev1.Reachable.step inflight2 (Rev1.Event.submitResolve true) afterSecondSuccess
    reachable_inflight2 rfl

theorem reachable_alName : Rev1.Reachable alName :=
  Rev1.Reachable.step Rev1.init (Rev1.Event.change FieldId.fullName "Al") alName
    Rev1.Reachable.init rfl

theorem reachable_alNameSize : Rev1.Reachable alNameSize :=
  Rev1.Reachable.step alName (Rev1.Event.change FieldId.size "M") alNameSize
    reachable_alName rfl

/-- C1: for every form state whose trimmed fullName length is between
3 and 20 inclusive, whose size is one of "S", "M", "L", and whose
toppings is an array (which the component state always guarantees —
the field holds an actual list), `validateForm` returns the empty
error mapping, under both revisions' schemas. -/
theorem c1_validateForm_empty_of_valid (fd : FormData)
    (hmin : 3 ≤ (jsTrim fd.fullName).length)
    (hmax : (jsTrim fd.fullName).length ≤ 20)
    (hsize : fd.size = "S" ∨ fd.size = "M" ∨ fd.size = "L") :
    (Rev1.validateForm fd).isEmpty = true ∧ (Rev2.validateForm fd).isEmpty = true := by
  have hne : fd.size ≠ "" := by
    rcases hsize with h | h | h <;> simp [h]
  constructor
  · simp only [Rev1.validateForm, Rev1.fullNameError, Rev1.sizeError,
      Rev1.toppingsError, Errors.isEmpty]
    rw [if_neg (by omega), if_neg (by omega), if_neg (by omega),
      if_neg hne, if_pos hsize]
    rfl
  · simp only [Rev2.validateForm, Rev2.fullNameError, Rev2.sizeError,
      Rev2.toppingsError, Errors.isEmpty]
    rw [if_neg (by omega), if_neg (by omega), if_neg (by omega),
      if_neg hne, if_pos hsize]
    rfl

theorem c1_validateForm_empty_of_valid_witness :
    3 ≤ (jsTrim "Alice").length ∧ (jsTrim "Alice").length ≤ 20 ∧
    (Rev1.validateForm ⟨"Alice", "S", ["1", "3"]⟩).isEmpty = true ∧
    (Rev2.validateForm ⟨"Alice", "S", ["1", "3"]⟩).isEmpty = true := by
  refine ⟨by decide, by decide, ?_⟩
  exact c1_validateForm_empty_of_valid ⟨"Alice", "S", ["1", "3"]⟩
    (by decide) (by decide) (Or.inl rfl)

/-- C10: on a duplicate-free toppings list, `handleToppingChange`
toggles membership of the given id, keeps the list duplicate-free, and
applying it twice with the same id yields a list with the same
elements as the original. -/
theorem c10_toggleToppings_toggles (ts : List String) (tid : String) (hnd : ts.Nodup) :
    (tid ∈ toggleToppings tid ts ↔ tid ∉ ts) ∧
    (toggleToppings tid ts).Nodup ∧
    (∀ x, x ∈ toggleToppings tid (toggleToppings tid ts) ↔ x ∈ ts) := by
  by_cases h : tid ∈ ts
  · have hc : ts.contains tid = true := by
      simpa using h
    have h1 : toggleToppings tid ts = ts.filter (fun id => id != tid) := by
      rw [toggleToppings, if_pos hc]
    have hmem : tid ∉ ts.filter (fun id => id != tid) := by
      simp [List.mem_filter]
    refine ⟨?_, ?_, ?_⟩
    · rw [h1]
      exact ⟨fun hx => absurd hx hmem, fun hx => absurd h hx⟩
    · rw [h1]
      exact hnd.filter _
    · intro x
      have hc2 : (ts.filter (fun id => id != tid)).contains tid = false :=
        Bool.eq_false_iff.mpr (fun hx => hmem (List.elem_iff.mp hx))
      rw [h1, toggleToppings, if_neg (by rw [hc2]; exact Bool.false_ne_true)]
      simp only [List.mem_append, List.mem_filter, List.mem_singleton, bne_iff_ne]
      constructor
      · rintro (⟨hx, _⟩ | rfl)
        · exact hx
        · exact h
      · intro hx
        by_cases hxe : x = tid
        · exact Or.inr hxe
        · exact Or.inl ⟨hx, hxe⟩
  · have hc : ts.contains tid = false :=
      Bool.eq_false_iff.mpr (fun hx => h (List.elem_iff.mp hx))
    have h1 : toggleToppings tid ts = ts ++ [tid] := by
      rw [toggleToppings, if_neg (by rw [hc]; exact Bool.false_ne_true)]
    refine ⟨?_, ?_, ?_⟩
    · rw [h1]
      simp [h]
    · rw [h1]
      simp [List.nodup_append, hnd, h]
    · intro x
      have hc2 : (ts ++ [tid]).contains tid = true :=
        List.elem_eq_true_of_mem (by simp)
      rw [h1, toggleToppings, if_pos hc2]
      simp only [List.filter_append, List.mem_append, List.mem_filter, bne_iff_ne]
      constructor
      · rintro (⟨hx, _⟩ | ⟨hx, hne⟩)
        · exact hx
        · rw [List.mem_singleton] at hx
          exact absurd hx hne
      · intro hx
        have hxne : x ≠ tid := fun he => h (he ▸ hx)
        exact Or.inl ⟨hx, hxne⟩

theorem c10_toggleToppings_toggles_witness :
    List.Nodup ["1", "3"] ∧
    (("2" ∈ toggleToppings "2" ["1", "3"]) ↔ "2" ∉ ["1", "3"]) ∧
    (toggleToppings "2" ["1", "3"]).Nodup ∧
    (("3" ∈ toggleToppings "2" (toggleToppings "2" ["1", "3"])) ↔ "3" ∈ ["1", "3"]) := by
  have h := c10_toggleToppings_toggles ["1", "3"] "2" (by decide)
  exact ⟨by decide, h.1, h.2.1, h.2.2 "3"⟩

/-- C3: in every reachable state of the first revision's component,
a non-empty error mapping implies the submit control is disabled
(there is no touched state in this revision at all, so the property is
independent of interaction history). -/
theorem c3_errors_nonempty_submit_disabled (s : Rev1.State) (h : Rev1.Reachable s)
    (hne : s.errors.isEmpty = false) : Rev1.submitDisabled s = true := by
  obtain ⟨hA, hB, hC, hF, hD, hE⟩ := Rev1.reachable_inv s h
  rw [Rev1.submitDisabled, hC hne]
  exact Bool.true_or s.isSubmitting

theorem c3_errors_nonempty_submit_disabled_witness :
    Rev1.init.errors.isEmpty = false ∧ Rev1.submitDisabled Rev1.init = true :=
  ⟨by decide, c3_errors_nonempty_submit_disabled Rev1.init Rev1.Reachable.init (by decide)⟩

/-- C9: in every reachable state of the first revision's component in
which a submission is in flight (the in-flight flag set by
`handleSubmit` and cleared when the outcome is recorded), the submit
control is disabled and the submit-start event is not enabled, so a
second submission can never begin before the first completes. -/
theorem c9_inflight_submit_disabled (s : Rev1.State) (_h : Rev1.Reachable s)
    (hin : s.isSubmitting = true) :
    Rev1.submitDisabled s = true ∧ Rev1.step Rev1.Event.submitStart s = none := by
  have hdis : Rev1.submitDisabled s = true := by
    rw [Rev1.submitDisabled, hin]
    exact Bool.or_true s.isSubmitDisabled
  refine ⟨hdis, ?_⟩
  simp only [Rev1.step]
  rw [if_pos hdis]

theorem c9_inflight_submit_disabled_witness :
    inflight.isSubmitting = true ∧
    Rev1.submitDisabled inflight = true ∧
    Rev1.step Rev1.Event.submitStart inflight = none := by
  have h := c9_inflight_submit_disabled inflight reachable_inflight (by decide)
  exact ⟨by decide, h.1, h.2⟩

/-- C6: for the form state fullName="Al", size="M", toppings=[], the
computed error mapping has exactly the "too short" fullName message
(and no size or toppings entry) in both revisions, and every reachable
state of the first revision holding this form data has the submit
control disabled. -/
theorem c6_scenario_Al_errors :
    Rev1.validateForm ⟨"Al", "M", []⟩ =
      ⟨some Rev1.fullNameTooShort, Option.none, Option.none⟩ ∧
    Rev2.validateForm ⟨"Al", "M", []⟩ =
      ⟨some Rev2.fullNameTooShort, Option.none, Option.none⟩ ∧
    ∀ s : Rev1.State, Rev1.Reachable s → s.formData = ⟨"Al", "M", []⟩ →
      Rev1.submitDisabled s = true := by
  refine ⟨by decide, by decide, ?_⟩
  intro s h hfd
  obtain ⟨hA, hB, hC, hF, hD, hE⟩ := Rev1.reachable_inv s h
  rw [hfd] at hA
  rw [Rev1.submitDisabled, hA, show (Rev1.validateForm ⟨"Al", "M", []⟩).isEmpty = false from by decide]
  rfl

theorem c6_scenario_Al_errors_witness :
    alNameSize.formData = ⟨"Al", "M", []⟩ ∧ Rev1.submitDisabled alNameSize = true :=
  ⟨by decide, c6_scenario_Al_errors.2.2 alNameSize reachable_alNameSize (by decide)⟩

/-- C2 fails as stated: at the second revision's freshly mounted state
the error mapping computed at submit is non-empty, so no submission is
performed — but besides the updated error mapping and the cleared
in-flight flag, `handleSubmit` also sets the attempted-submit flag
(`setHasAttemptedSubmit(true)` at line 318), an additional state
change the claim's frame condition excludes. -/
theorem c2_frame_counterexample :
    (Rev2.validateForm Rev2.init.formData).isEmpty = false ∧
    (Rev2.handleSubmit Rev2.init).2 = false ∧
    Rev2.init.hasAttemptedSubmit = false ∧
    (Rev2.handleSubmit Rev2.init).1.hasAttemptedSubmit = true := by
  refine ⟨by decide, by decide, by decide, by decide⟩

/-- C2 (amended): in both revisions the submission attempt (the `try`
block with the simulated service outcome) is performed iff the error
mapping computed from the form data at the moment of submit is empty;
when it is non-empty, no submission occurs and the only state changes
are the updated error mapping, the in-flight flag being cleared and —
in the second revision — the attempted-submit flag being set. -/
theorem c2_no_submission_when_invalid :
    (∀ (s : Rev1.State) (success : Bool),
      ((Rev1.handleSubmit success s).2 = true ↔
        (Rev1.validateForm s.formData).isEmpty = true) ∧
      ((Rev1.validateForm s.formData).isEmpty = false →
        (Rev1.handleSubmit success s).1 =
          { s with errors := Rev1.validateForm s.formData,
                   isSubmitting := false, pending := Option.none })) ∧
    (∀ s : Rev2.State,
      ((Rev2.handleSubmit s).2 = true ↔
        (Rev2.validateForm s.formData).isEmpty = true) ∧
      ((Rev2.validateForm s.formData).isEmpty = false →
        (Rev2.handleSubmit s).1 =
          { s with errors := Rev2.validateForm s.formData,
                   isSubmitting := false, pending := Option.none,
                   hasAttemptedSubmit := true })) := by
  constructor
  · intro s success
    rw [Rev1.handleSubmit, Rev1.submitResolveStep]
    cases hv : (Rev1.validateForm s.formData).isEmpty
    · rw [if_neg Bool.false_ne_true]
      exact ⟨Iff.rfl, fun _ => rfl⟩
    · rw [if_pos rfl]
      cases success
      · rw [if_neg Bool.false_ne_true]
        exact ⟨Iff.rfl, fun hcon => nomatch hcon⟩
      · rw [if_pos rfl]
        exact ⟨Iff.rfl, fun hcon => nomatch hcon⟩
  · intro s
    rw [Rev2.handleSubmit, Rev2.submitResolveStep]
    cases hv : (Rev2.validateForm s.formData).isEmpty
    · rw [if_neg Bool.false_ne_true]
      exact ⟨Iff.rfl, fun _ => rfl⟩
    · rw [if_pos rfl]
      exact ⟨Iff.rfl, fun hcon => nomatch hcon⟩

theorem c2_no_submission_when_invalid_witness :
    (Rev1.validateForm Rev1.init.formData).isEmpty = false ∧
    (Rev1.handleSubmit true Rev1.init).2 = false ∧
    (Rev1.handleSubmit true Rev1.init).1 =
      { Rev1.init with errors := Rev1.validateForm Rev1.init.formData,
                       isSubmitting := false, pending := Option.none } := by
  have h := (c2_no_submission_when_invalid.1 Rev1.init true)
  refine ⟨by decide, ?_, h.2 (by decide)⟩
  cases hb : (Rev1.handleSubmit true Rev1.init).2
  · rfl
  · exact absurd (h.1.mp hb) (by decide)

/-- C4: for every valid form state, the success transition of
`handleSubmit` resets the form data to its initial empty values,
shows the success banner with the confirmation message built from the
submitted snapshot, and — in the second revision, the one that has
them — clears the touched and attempted flags.  The message's topping
phrase is pluralized 0 → "no toppings", 1 → "1 topping",
N → "N toppings". -/
theorem c4_success_resets_and_message :
    (∀ s : Rev1.State, (Rev1.validateForm s.formData).isEmpty = true →
      (Rev1.handleSubmit true s).1.formData = initialFormData ∧
      (Rev1.handleSubmit true s).1.orderSuccess = true ∧
      (Rev1.handleSubmit true s).1.orderMessage = Rev1.successMessage s.formData) ∧
    (∀ s : Rev2.State, (Rev2.validateForm s.formData).isEmpty = true →
      (Rev2.handleSubmit s).1.formData = initialFormData ∧
      (Rev2.handleSubmit s).1.orderSuccess = true ∧
      (Rev2.handleSubmit s).1.touched = Rev2.Touched.initial ∧
      (Rev2.handleSubmit s).1.hasAttemptedSubmit = false ∧
      (Rev2.handleSubmit s).1.orderMessage = Rev2.successMessage s.formData) ∧
    toppingMessage 0 = "with no toppings" ∧
    toppingMessage 1 = "with 1 topping" ∧
    (∀ n, 2 ≤ n → toppingMessage n = "with " ++ toString n ++ " toppings") := by
  refine ⟨?_, ?_, by decide, by decide, ?_⟩
  · intro s hv
    rw [Rev1.handleSubmit, Rev1.submitResolveStep, if_pos hv, if_pos rfl,
      Rev1.bannerEffectIfChanged]
    split
    · exact ⟨rfl, rfl, rfl⟩
    · rw [Rev1.runBannerEffect]
      split
      · exact ⟨rfl, rfl, rfl⟩
      · exact ⟨rfl, rfl, rfl⟩
  · intro s hv
    rw [Rev2.handleSubmit, Rev2.submitResolveStep, if_pos hv,
      Rev2.bannerEffectIfChanged]
    split
    · exact ⟨rfl, rfl, rfl, rfl, rfl⟩
    · rw [Rev2.runBannerEffect]
      split
      · exact ⟨rfl, rfl, rfl, rfl, rfl⟩
      · exact ⟨rfl, rfl, rfl, rfl, rfl⟩
  · intro n hn
    rw [toppingMessage, if_neg (by omega), if_neg (by omega)]

theorem c4_success_resets_and_message_witness :
    (Rev1.validateForm (⟨"Alice", "S", ["1", "3"]⟩ : FormData)).isEmpty = true ∧
    (Rev1.handleSubmit true
        { Rev1.init with formData := ⟨"Alice", "S", ["1", "3"]⟩ }).1.orderMessage =
      Rev1.successMessage ⟨"Alice", "S", ["1", "3"]⟩ ∧
    Rev1.successMessage ⟨"Alice", "S", ["1", "3"]⟩ =
      "Thank you for your order, Alice! Your small pizza with 2 toppings" ∧
    Rev2.successMessage ⟨"Alice", "S", ["1", "3"]⟩ =
      "Thank you for your order, Alice! Your small pizza with 2 toppings is on the way." := by
  refine ⟨by decide, ?_, by decide, by decide⟩
  exact (c4_success_resets_and_message.1
    { Rev1.init with formData := ⟨"Alice", "S", ["1", "3"]⟩ } (by decide)).2.2

/-- C5: for every valid form state, the failure transition of the
first revision's `handleSubmit` leaves the entered form data
untouched, clears the stored message, and displays the generic
failure banner "Something went wrong". -/
theorem c5_failure_preserves_form (s : Rev1.State)
    (hv : (Rev1.validateForm s.formData).isEmpty = true) :
    (Rev1.handleSubmit false s).1.formData = s.formData ∧
    (Rev1.handleSubmit false s).1.orderFailure = true ∧
    Rev1.failureBannerText (Rev1.handleSubmit false s).1 = some "Something went wrong" ∧
    (Rev1.handleSubmit false s).1.orderMessage = "" := by
  rw [Rev1.handleSubmit, Rev1.submitResolveStep, if_pos hv,
    if_neg Bool.false_ne_true, Rev1.bannerEffectIfChanged]
  split
  · exact ⟨rfl, rfl, rfl, rfl⟩
  · rw [Rev1.runBannerEffect]
    split
    · exact ⟨rfl, rfl, rfl, rfl⟩
    · exact ⟨rfl, rfl, rfl, rfl⟩

theorem c5_failure_preserves_form_witness :
    (Rev1.validateForm (⟨"Alice", "S", ["1"]⟩ : FormData)).isEmpty = true ∧
    (Rev1.handleSubmit false
        { Rev1.init with formData := ⟨"Alice", "S", ["1"]⟩ }).1.formData =
      (⟨"Alice", "S", ["1"]⟩ : FormData) ∧
    Rev1.failureBannerText
        (Rev1.handleSubmit false
          { Rev1.init with formData := ⟨"Alice", "S", ["1"]⟩ }).1 =
      some "Something went wrong" := by
  have h := c5_failure_preserves_form
    { Rev1.init with formData := ⟨"Alice", "S", ["1"]⟩ } (by decide)
  exact ⟨by decide, h.1, h.2.2.1⟩

/-- The banner effect only rearms or clears the timeout; it never
touches the banner flags themselves. -/
theorem bannerEffectIfChanged_flags (prev post : Rev1.State) :
    (Rev1.bannerEffectIfChanged prev post).orderSuccess = post.orderSuccess ∧
    (Rev1.bannerEffectIfChanged prev post).orderFailure = post.orderFailure := by
  rw [Rev1.bannerEffectIfChanged]
  split
  · exact ⟨rfl, rfl⟩
  · rw [Rev1.runBannerEffect]
    split
    · exact ⟨rfl, rfl⟩
    · exact ⟨rfl, rfl⟩

/-- When the banner dependency pair changed across a commit, the
effect's cleanup cancels the previously armed timeout: any freshly
armed timeout carries a strictly newer generation. -/
theorem bannerTimer_fresh (prev post : Rev1.State)
    (hpo : ¬(post.orderSuccess = prev.orderSuccess ∧ post.orderFailure = prev.orderFailure))
    (hnext : post.nextTimer = prev.nextTimer) (g d : Nat)
    (hg : prev.bannerTimer = some (g, d))
    (hfresh : ∀ g' d', prev.bannerTimer = some (g', d') → g' < prev.nextTimer) :
    (Rev1.bannerEffectIfChanged prev post).bannerTimer ≠ some (g, d) := by
  rw [Rev1.bannerEffectIfChanged, if_neg hpo, Rev1.runBannerEffect]
  split
  · intro hcon
    have hcon' : some (post.nextTimer, Rev1.bannerTimeoutMs) = some (g, d) := hcon
    injection hcon' with hpair
    injection hpair with h1 h2
    have := hfresh g d hg
    omega
  · intro hcon
    have hcon' : (none : Option (Nat × Nat)) = some (g, d) := hcon
    exact absurd hcon' (by simp)

/-- C7 fails as stated on the first revision: in the freshly mounted
initial state — no field ever changed or blurred and no submit
attempted (this revision tracks no touched state at all) — the
fullName field is invalid and its error text is rendered (line 175
gates only on `errors.fullName`). -/
theorem c7_ungated_render_counterexample :
    Rev1.Reachable Rev1.init ∧
    Rev1.init.errors.fullName.isSome = true ∧
    Rev1.showFullNameError Rev1.init = true :=
  ⟨Rev1.Reachable.init, by decide, by decide⟩

/-- C7 (amended): in the second revision, per-field error text is
rendered only when the field is currently invalid and a submit has
been attempted or the field's touched flag is set (for toppings the
gate reads the `topping` key, which no handler ever sets), and an
untouched invalid field with no attempt shows no error text; in the
first revision the error text is rendered exactly when the field is
invalid, regardless of interaction or attempts. -/
theorem c7_error_render_gated :
    (∀ s : Rev2.State,
      (Rev2.showFullNameError s = true →
        s.errors.fullName.isSome = true ∧
        (s.hasAttemptedSubmit || s.touched.fullName) = true) ∧
      (Rev2.showSizeError s = true →
        s.errors.size.isSome = true ∧
        (s.hasAttemptedSubmit || s.touched.size) = true) ∧
      (Rev2.showToppingsError s = true →
        s.errors.toppings.isSome = true ∧
        (s.hasAttemptedSubmit || s.touched.topping) = true) ∧
      (s.hasAttemptedSubmit = false → s.touched = Rev2.Touched.initial →
        Rev2.showFullNameError s = false ∧ Rev2.showSizeError s = false ∧
        Rev2.showToppingsError s = false)) ∧
    (∀ s : Rev1.State,
      Rev1.showFullNameError s = s.errors.fullName.isSome ∧
      Rev1.showSizeError s = s.errors.size.isSome ∧
      Rev1.showToppingsError s = s.errors.toppings.isSome) := by
  constructor
  · intro s
    refine ⟨?_, ?_, ?_, ?_⟩
    · intro hx
      rw [Rev2.showFullNameError, Bool.and_eq_true] at hx
      exact ⟨hx.2, hx.1⟩
    · intro hx
      rw [Rev2.showSizeError, Bool.and_eq_true] at hx
      exact ⟨hx.2, hx.1⟩
    · intro hx
      rw [Rev2.showToppingsError, Bool.and_eq_true] at hx
      exact ⟨hx.2, hx.1⟩
    · intro hna ht
      rw [Rev2.showFullNameError, Rev2.showSizeError, Rev2.showToppingsError,
        hna, ht]
      exact ⟨rfl, rfl, rfl⟩
  · intro s
    exact ⟨rfl, rfl, rfl⟩

theorem c7_error_render_gated_witness :
    Rev2.init.hasAttemptedSubmit = false ∧
    Rev2.init.touched = Rev2.Touched.initial ∧
    Rev2.init.errors.fullName.isSome = true ∧
    Rev2.showFullNameError Rev2.init = false := by
  have h := (c7_error_render_gated.1 Rev2.init).2.2.2 (by decide) (by decide)
  exact ⟨by decide, by decide, by decide, h.1⟩

/-- C8 fails as stated: a first successful submission arms the banner
timeout of generation 0; refilling the form and submitting again
enters the Succeeded terminal state anew, storing a new confirmation
message — but the effect's dependency pair (orderSuccess,
orderFailure) is unchanged, so the effect does not re-run, the
generation-0 timeout from the first submission stays pending, and
firing it clears the new message (before that message's own full
display delay). -/
theorem c8_stale_timer_counterexample :
    Rev1.Reachable afterSecondSuccess ∧
    afterFirstSuccess.bannerTimer = some (0, Rev1.bannerTimeoutMs) ∧
    afterSecondSuccess.orderMessage ≠ afterFirstSuccess.orderMessage ∧
    afterSecondSuccess.bannerTimer = some (0, Rev1.bannerTimeoutMs) ∧
    Rev1.step (Rev1.Event.timerFire 0) afterSecondSuccess =
      some (Rev1.timerFireStep afterSecondSuccess) ∧
    (Rev1.timerFireStep afterSecondSuccess).orderMessage = "" :=
  ⟨reachable_afterSecondSuccess, by decide, by decide, by decide, by decide, by decide⟩

/-- C8 (amended): in every reachable state of the first revision,
whenever a banner is showing a timeout of the fixed delay is armed;
firing it reverts the component to Idle (both flags cleared, message
cleared, no timeout pending) with no user action; and whenever a step
changes the banner dependency pair (entering a different terminal
state, or clearing the banner), the previously armed timeout is
cancelled — it can never fire afterwards.  A step that re-enters the
same terminal state (success after success) leaves the dependency
pair unchanged and is not covered: the old timeout survives, as the
counterexample shows.  The fixed delay is 3000 ms in the first
revision and 30000 ms in the second. -/
theorem c8_banner_timeout (s : Rev1.State) (h : Rev1.Reachable s) :
    ((s.orderSuccess || s.orderFailure) = true →
      ∃ g, s.bannerTimer = some (g, Rev1.bannerTimeoutMs)) ∧
    (∀ g s', Rev1.step (Rev1.Event.timerFire g) s = some s' →
      s'.orderSuccess = false ∧ s'.orderFailure = false ∧
      s'.orderMessage = "" ∧ s'.bannerTimer = Option.none) ∧
    (∀ e s', Rev1.step e s = some s' →
      (s'.orderSuccess ≠ s.orderSuccess ∨ s'.orderFailure ≠ s.orderFailure) →
      ∀ g d, s.bannerTimer = some (g, d) → s'.bannerTimer ≠ some (g, d)) ∧
    Rev1.bannerTimeoutMs = 3000 ∧ Rev2.bannerTimeoutMs = 30000 := by
  obtain ⟨hA, hB, hC, hF, hD, hE⟩ := Rev1.reachable_inv s h
  refine ⟨fun hon => hD.mp hon, ?_, ?_, rfl, rfl⟩
  · intro g s' hstep
    simp only [Rev1.step] at hstep
    split at hstep
    · rename_i gd hgd
      split at hstep
      · cases hstep
        have hdm := (hE gd.1 gd.2 (by rw [hgd])).1
        have hon : (s.orderSuccess || s.orderFailure) = true :=
          hD.mpr ⟨gd.1, by rw [hgd, ← hdm]⟩
        rw [Rev1.timerFireStep, Rev1.bannerEffectIfChanged]
        split
        · rename_i hdep
          have h1 : false = s.orderSuccess := hdep.1
          have h2 : false = s.orderFailure := hdep.2
          rw [← h1, ← h2] at hon
          exact absurd hon (by decide)
        · rw [Rev1.runBannerEffect]
          split
          · rename_i hcond
            have hcond' : (false || false) = true := hcond
            exact absurd hcond' (by decide)
          · exact ⟨rfl, rfl, rfl, rfl⟩
      · exact absurd hstep (by simp)
    · exact absurd hstep (by simp)
  · intro e s' hstep hchange g d hg
    cases e with
    | change id v =>
        simp only [Rev1.step] at hstep
        cases hstep
        rcases hchange with hso | hof
        · exact absurd rfl hso
        · exact absurd rfl hof
    | toggleTopping tid =>
        simp only [Rev1.step] at hstep
        cases hstep
        rcases hchange with hso | hof
        · exact absurd rfl hso
        · exact absurd rfl hof
    | submitStart =>
        simp only [Rev1.step] at hstep
        split at hstep
        · exact absurd hstep (by simp)
        · cases hstep
          rcases hchange with hso | hof
          · exact absurd rfl hso
          · exact absurd rfl hof
    | submitResolve success =>
        simp only [Rev1.step] at hstep
        split at hstep
        · rename_i snap hp
          cases hstep
          have hsnapv := hB snap hp
          rw [Rev1.submitResolveStep, if_pos hsnapv] at hchange ⊢
          cases success
          · rw [if_neg Bool.false_ne_true] at hchange ⊢
            rw [(bannerEffectIfChanged_flags _ _).1,
              (bannerEffectIfChanged_flags _ _).2] at hchange
            refine bannerTimer_fresh _ _ ?_ ?_ g d hg
              (fun g' d' h' => (hE g' d' h').2)
            · intro hdep
              rcases hchange with hso | hof
              · exact hso hdep.1
              · exact hof hdep.2
            · rfl
          · rw [if_pos rfl] at hchange ⊢
            rw [(bannerEffectIfChanged_flags _ _).1,
              (bannerEffectIfChanged_flags _ _).2] at hchange
            refine bannerTimer_fresh _ _ ?_ ?_ g d hg
              (fun g' d' h' => (hE g' d' h').2)
            · intro hdep
              rcases hchange with hso | hof
              · exact hso hdep.1
              · exact hof hdep.2
            · rfl
        · exact absurd hstep (by simp)
    | timerFire gf =>
        simp only [Rev1.step] at hstep
        split at hstep
        · rename_i gd hgd
          split at hstep
          · cases hstep
            rw [Rev1.timerFireStep] at hchange ⊢
            rw [(bannerEffectIfChanged_flags _ _).1,
              (bannerEffectIfChanged_flags _ _).2] at hchange
            refine bannerTimer_fresh _ _ ?_ ?_ g d hg
              (fun g' d' h' => (hE g' d' h').2)
            · intro hdep
              rcases hchange with hso | hof
              · exact hso hdep.1
              · exact hof hdep.2
            · rfl
          · exact absurd hstep (by simp)
        · exact absurd hstep (by simp)

theorem c8_banner_timeout_witness :
    (afterFirstSuccess.orderSuccess || afterFirstSuccess.orderFailure) = true ∧
    (∃ g, afterFirstSuccess.bannerTimer = some (g, Rev1.bannerTimeoutMs)) ∧
    Rev1.bannerTimeoutMs = 3000 := by
  have h := c8_banner_timeout afterFirstSuccess reachable_afterFirstSuccess
  exact ⟨by decide, h.1 (by decide), h.2.2.2.1⟩
